import Mathlib

/-!
Shallow embedding of the waSCC host runtime (wascc-host fork), covering the
host facade (src/lib.rs), the in-process message bus (src/bus/inproc.rs) and
the networked "lattice" bus (src/bus/lattice.rs).

Rust HashMaps are modelled as association lists with overwrite-on-insert;
channels and the NATS connection are modelled by explicit parameters (the
response a channel or the network would deliver); calls issued on the bus are
returned as an explicit trace so that routing claims can be stated.
-/

namespace Wascc

/-- Lookup in an association list, mirroring HashMap::get. -/
def mapLookup {κ α : Type} [DecidableEq κ] (m : List (κ × α)) (k : κ) : Option α :=
  match m with
  | [] => none
  | (k2, v) :: rest => if k2 = k then some v else mapLookup rest k

/-- Key-membership test, mirroring HashMap::contains_key. -/
def mapContains {κ α : Type} [DecidableEq κ] (m : List (κ × α)) (k : κ) : Bool :=
  (mapLookup m k).isSome

/-- Insert with overwrite, mirroring HashMap::insert (the returned old value is
unused by the sources). -/
def mapInsert {κ α : Type} [DecidableEq κ] (m : List (κ × α)) (k : κ) (v : α) :
    List (κ × α) :=
  match m with
  | [] => [(k, v)]
  | (k2, v2) :: rest => if k2 = k then (k, v) :: rest else (k2, v2) :: mapInsert rest k v

/-- Error kinds of the host's error taxonomy. errors.rs is not under src/; the
constructors are modelled from the spec's taxonomy (Authorization,
ClaimsValidation, CapabilityProvider, NoSuchSubscriber, IO/Transport,
Serialization, MiscHost). The sources under src/ construct the MiscHost,
Authorization and CapabilityProvider kinds, each carrying a message string;
the Io constructor stands for the spec's IO/Transport kind. -/
inductive ErrorKind : Type where
  | Authorization (msg : String)
  | ClaimsValidation (msg : String)
  | CapabilityProvider (msg : String)
  | NoSuchSubscriber (msg : String)
  | Io (msg : String)
  | Serialization (msg : String)
  | MiscHost (msg : String)
  deriving Repr, DecidableEq

/-- Rendering of an error, standing for the Display impl used by the
format strings in bind_actor (errors.rs is not under src/). -/
def ErrorKind.message : ErrorKind → String
  | .Authorization m => m
  | .ClaimsValidation m => m
  | .CapabilityProvider m => m
  | .NoSuchSubscriber m => m
  | .Io m => m
  | .Serialization m => m
  | .MiscHost m => m

/-- Modelled from the spec: the signed claims of an actor token (wascap is an
external crate); the subject is the public key and caps the set of capability
ids the actor is authorized to invoke. -/
structure Claims : Type where
  subject : String
  caps : List String
  deriving Repr, DecidableEq

/-- Capability descriptor block (from the external codec crate): keyed fields
used by the sources are the capability id; the name is representative payload. -/
structure CapabilityDescriptor : Type where
  id : String
  name : String
  deriving Repr, DecidableEq

/-- A native capability provider as the facade sees it (capability.rs is not
under src/): a binding name plus the descriptor supplied by the plugin. -/
structure NativeCapability : Type where
  binding_name : String
  descriptor : CapabilityDescriptor
  deriving Repr, DecidableEq

/-- Modelled from the spec: NativeCapability::id (capability.rs is not under
src/) returns the capability id from the descriptor. -/
def NativeCapability.id (c : NativeCapability) : String := c.descriptor.id

/-- An actor as the facade sees it (actor.rs is not under src/): the signed
token claims; the module bytes play no role in the claims settled here. -/
structure Actor : Type where
  claims : Claims
  deriving Repr, DecidableEq

/-- Modelled from the spec: Actor::public_key (actor.rs is not under src/) is
the token claims' subject. -/
def Actor.public_key (a : Actor) : String := a.claims.subject

/-- Modelled from the spec: Actor::capabilities (actor.rs is not under src/)
is the caps set of the token claims. -/
def Actor.capabilities (a : Actor) : List String := a.claims.caps

/-- Invocation payload: raw bytes, or the serialized capability configuration
(serialization itself lives in the external codec crate and is kept symbolic). -/
inductive Payload : Type where
  | bytes (data : List Nat)
  | config (module : String) (values : List (String × String))
  deriving Repr, DecidableEq

/-- Target of an invocation (inthost.rs is not under src/; modelled from the
spec's envelope: Actor(pk) or Capability with capid and binding). -/
inductive InvocationTarget : Type where
  | Actor (pk : String)
  | Capability (capid : String) (binding : String)
  deriving Repr, DecidableEq

/-- Modelled from the spec: the invocation envelope with origin, target,
operation and message payload (inthost.rs is not under src/). -/
structure Invocation : Type where
  origin : String
  target : InvocationTarget
  operation : String
  msg : Payload
  deriving Repr, DecidableEq

/-- The invocation response envelope: message bytes plus an optional error
string (a present error indicates failure). -/
structure InvocationResponse : Type where
  msg : List Nat
  error : Option String
  deriving Repr, DecidableEq

/-- SYSTEM_ACTOR, the reserved origin the host uses for invocations it
synthesizes itself (constant of the external codec crate). -/
def SYSTEM_ACTOR : String := "system"

/-- Modelled from the spec: the well-known configuration operation name
OP_BIND_ACTOR (constant of the external codec crate). -/
def OP_BIND_ACTOR : String := "BindActor"

/-- Modelled from the spec: the built-in extras capability id implicitly
granted to every actor (extras.rs is not under src/). -/
def extras_CAPABILITY_ID : String := "wascc:extras"

/-- Modelled from the spec: bus::actor_subject (bus/mod.rs is not under src/);
the actor subject is a pure function of the public key. -/
def actor_subject (pk : String) : String := "wasmbus.actor." ++ pk

/-- Modelled from the spec: bus::provider_subject (bus/mod.rs is not under
src/); the provider subject is a pure function of capid and binding name. -/
def provider_subject (capid binding : String) : String :=
  "wasmbus.provider." ++ capid ++ "." ++ binding

deriving instance DecidableEq for Except

/-- The in-process bus state (src/bus/inproc.rs): the subscription table from
subject to the subscriber's channel pair; a channel pair is modelled by a
numeric handle. -/
structure InprocBus : Type where
  subscriptions : List (String × Nat)
  deriving Repr, DecidableEq

/-- InprocBus::subscribe (src/bus/inproc.rs): unconditionally inserts the
channel pair under the subject (overwriting any existing entry) and returns Ok. -/
def InprocBus.subscribe (b : InprocBus) (subject : String) (channel : Nat) :
    Except ErrorKind Unit × InprocBus :=
  (Except.ok (), ⟨mapInsert b.subscriptions subject channel⟩)

/-- InprocBus::invoke (src/bus/inproc.rs): looks the subject up; when a
subscriber exists it sends the invocation on the subscriber's sender and blocks
on the receiver (the worker's reply is modelled by the respond parameter); when
none exists it returns a MiscHost error naming the subject. The second
component is the (unchanged) bus, the third the list of deliveries performed. -/
def InprocBus.invoke (respond : Nat → InvocationResponse) (b : InprocBus)
    (subject : String) (inv : Invocation) :
    Except ErrorKind InvocationResponse × InprocBus × List (Nat × Invocation) :=
  match mapLookup b.subscriptions subject with
  | some channel => (Except.ok (respond channel), b, [(channel, inv)])
  | none =>
      (Except.error (ErrorKind.MiscHost
        ("Attempted bus call for " ++ subject ++ " with no subscribers")), b, [])

/-- The networked bus state (src/bus/lattice.rs): the local map from subject to
the NATS subscription handler, modelled by a numeric handle. -/
structure DistributedBus : Type where
  subs : List (String × Nat)
  deriving Repr, DecidableEq

/-- DistributedBus::subscribe (src/bus/lattice.rs): performs a NATS
queue_subscribe (an external call, modelled by its result); on success it
inserts the handler under the subject (overwriting any existing entry) and
returns Ok; the only error path is failure of the NATS call itself — there is
no duplicate-subject check. -/
def DistributedBus.subscribe (natsSubscribeResult : Except ErrorKind Nat)
    (b : DistributedBus) (subject : String) : Except ErrorKind Unit × DistributedBus :=
  match natsSubscribeResult with
  | Except.error e => (Except.error e, b)
  | Except.ok handler => (Except.ok (), ⟨mapInsert b.subs subject handler⟩)

/-- The integer parse used by get_timeout (Rust's u64 from_str): an optional
leading plus sign, then one or more ASCII digits, and the value must fit in 64
bits; anything else fails. -/
def rustParseU64 (s : String) : Option Nat :=
  let digits :=
    match s.data with
    | '+' :: rest => rest
    | cs => cs
  if digits = [] then none
  else if digits.all Char.isDigit then
    let v := digits.foldl (fun acc c => acc * 10 + (c.toNat - 48)) 0
    if v < 2 ^ 64 then some v else none
  else none

def DEFAULT_LATTICE_RPC_TIMEOUT_MILLIS : Nat := 500

/-- get_timeout (src/bus/lattice.rs): reads LATTICE_RPC_TIMEOUT_MILLIS (the
environment read is modelled by the envVal parameter: none when unset); an
empty value gives the default, otherwise the value is parsed with the default
on parse failure. The result is the timeout in milliseconds. -/
def get_timeout (envVal : Option String) : Nat :=
  match envVal with
  | some val =>
      if val = "" then DEFAULT_LATTICE_RPC_TIMEOUT_MILLIS
      else (rustParseU64 val).getD DEFAULT_LATTICE_RPC_TIMEOUT_MILLIS
  | none => DEFAULT_LATTICE_RPC_TIMEOUT_MILLIS

/-- Outcome of the NATS request_timeout call made by DistributedBus::invoke:
either a reply arrived in time carrying a response, or the timeout elapsed. -/
inductive NatsReply : Type where
  | reply (resp : InvocationResponse)
  | timeout
  deriving Repr, DecidableEq

/-- DistributedBus::invoke (src/bus/lattice.rs): performs a NATS request with
the timeout computed by get_timeout. Modelled from the spec where the sources
leave the transport external: serialization is the external codec crate and is
kept symbolic, and an elapsed timeout is surfaced as the transient IO/Transport
error kind. The second component records the timeout passed to the request. -/
def DistributedBus.invoke (envVal : Option String) (reply : NatsReply)
    (subject : String) (inv : Invocation) :
    Except ErrorKind InvocationResponse × Nat :=
  match subject, inv, reply with
  | _, _, NatsReply.reply resp => (Except.ok resp, get_timeout envVal)
  | _, _, NatsReply.timeout =>
      (Except.error (ErrorKind.Io "the lattice rpc request timed out"),
       get_timeout envVal)

/-- The registries owned by the host facade (src/lib.rs, struct WasccHost):
claims per public key, the bindings list of (actor, capid, binding) triples,
capability descriptors keyed by (binding_name, capability_id), and the
terminators map from subscription subject to the shutdown sender (the sender is
modelled by a numeric handle). The plugin manager, middleware list and auth
hook carry no data the claims below depend on. -/
structure WasccHost : Type where
  claims : List (String × Claims)
  bindings : List (String × String × String)
  caps : List ((String × String) × CapabilityDescriptor)
  terminators : List (String × Nat)
  deriving Repr, DecidableEq

/-- Modelled from the spec: authz::can_invoke (authz.rs is not under src/) is
true iff the claims' caps set contains the capability id, or the id is the
built-in extras capability, or the caller is SYSTEM_ACTOR. -/
def can_invoke (c : Claims) (capid : String) : Bool :=
  c.caps.contains capid || capid == extras_CAPABILITY_ID || c.subject == SYSTEM_ACTOR

/-- Modelled from the spec: inthost::gen_config_invocation (inthost.rs is not
under src/) builds the configuration invocation: operation OP_BIND_ACTOR and a
payload serialized from the actor public key and the configuration values. -/
def gen_config_invocation (actor capid binding : String)
    (config : List (String × String)) : Invocation :=
  { origin := SYSTEM_ACTOR
    target := InvocationTarget.Capability capid binding
    operation := OP_BIND_ACTOR
    msg := Payload.config actor config }

/-- Modelled from the spec: WasccHost::record_binding (inthost.rs is not under
src/) appends the (actor, capid, binding) triple to the bindings list. -/
def record_binding (h : WasccHost) (actor capid binding : String) : WasccHost :=
  { h with bindings := h.bindings ++ [(actor, capid, binding)] }

/-- The starts_with test of the source, computed on the string's character
list (Rust's str::starts_with; String.startsWith itself is defined by
well-founded recursion on byte positions and does not reduce in the kernel). -/
def stringStartsWith (s pre : String) : Bool :=
  List.isPrefixOf pre.data s.data

/-- The target-subject selection inside WasccHost::bind_actor (src/lib.rs):
the actor subject when the actor equals the capid or is SYSTEM_ACTOR and the
capid starts with the letter M, the provider subject otherwise. -/
def bind_target_subject (actor capid binding : String) : String :=
  if (actor == capid || actor == SYSTEM_ACTOR) && stringStartsWith capid "M"
  then actor_subject actor
  else provider_subject capid binding

/-- Result of bind_actor: the returned value, the host registries afterwards,
and the trace of (subject, invocation) calls issued on the bus. -/
structure BindActorResult : Type where
  result : Except ErrorKind Unit
  host : WasccHost
  busCalls : List (String × Invocation)
  deriving Repr, DecidableEq

/-- WasccHost::bind_actor (src/lib.rs): rejects a public key absent from the
claims map, then an unauthorized capability; selects the target subject,
issues the configuration invocation on the bus (the bus transport and the
subscribed workers are modelled by the bus parameter), and records the binding
only when the response carries no error. -/
def bind_actor (bus : String → Invocation → Except ErrorKind InvocationResponse)
    (h : WasccHost) (actor capid : String) (binding_name : Option String)
    (config : List (String × String)) : BindActorResult :=
  match mapLookup h.claims actor with
  | none =>
      ⟨Except.error (ErrorKind.MiscHost "Attempted to bind non-existent actor"), h, []⟩
  | some c =>
      if can_invoke c capid = false then
        ⟨Except.error (ErrorKind.Authorization
          ("Unauthorized binding: actor " ++ actor ++
           " is not authorized to use capability " ++ capid ++ ".")), h, []⟩
      else
        let binding := binding_name.getD "default"
        let tgt_subject := bind_target_subject actor capid binding
        let inv := gen_config_invocation actor capid binding config
        match bus tgt_subject inv with
        | Except.ok inv_r =>
            match inv_r.error with
            | some e =>
                ⟨Except.error (ErrorKind.CapabilityProvider
                  ("Failed to configure " ++ binding ++ "," ++ capid ++ " - " ++ e)),
                 h, [(tgt_subject, inv)]⟩
            | none =>
                ⟨Except.ok (), record_binding h actor capid binding,
                 [(tgt_subject, inv)]⟩
        | Except.error e =>
            ⟨Except.error (ErrorKind.CapabilityProvider
              ("Failed to configure " ++ binding ++ "," ++ capid ++ " - " ++
               ErrorKind.message e)), h, [(tgt_subject, inv)]⟩

/-- The success condition of bind_actor stated on its inputs: the actor is
present, authorized, and the configuration invocation on the bus returned a
response with no error. -/
def config_invocation_ok
    (bus : String → Invocation → Except ErrorKind InvocationResponse)
    (h : WasccHost) (actor capid : String) (binding_name : Option String)
    (config : List (String × String)) : Bool :=
  match mapLookup h.claims actor with
  | none => false
  | some c =>
      can_invoke c capid &&
      (let binding := binding_name.getD "default"
       match bus (bind_target_subject actor capid binding)
           (gen_config_invocation actor capid binding config) with
       | Except.ok inv_r => inv_r.error.isNone
       | Except.error _ => false)

/-- Result of call_actor: the returned value and the trace of
(subject, invocation) calls issued on the bus. -/
structure CallActorResult : Type where
  result : Except ErrorKind (List Nat)
  busCalls : List (String × Invocation)
  deriving Repr, DecidableEq

/-- WasccHost::call_actor (src/lib.rs): rejects a public key absent from the
claims map before any envelope is built; otherwise issues an invocation with
origin SYSTEM_ACTOR and target Actor(pk) on the actor subject, and on an Ok
bus reply returns the response's msg bytes (the response's error field is
never examined). -/
def call_actor (bus : String → Invocation → Except ErrorKind InvocationResponse)
    (h : WasccHost) (actor operation : String) (msg : List Nat) : CallActorResult :=
  if mapContains h.claims actor = false then
    ⟨Except.error (ErrorKind.MiscHost "No such actor"), []⟩
  else
    let inv : Invocation :=
      { origin := SYSTEM_ACTOR
        target := InvocationTarget.Actor actor
        operation := operation
        msg := Payload.bytes msg }
    let tgt_subject := actor_subject actor
    match bus tgt_subject inv with
    | Except.ok resp => ⟨Except.ok resp.msg, [(tgt_subject, inv)]⟩
    | Except.error e => ⟨Except.error e, [(tgt_subject, inv)]⟩

/-- Outcome of a Rust call that may also panic (distinct from returning Err). -/
inductive RustOutcome (α : Type) : Type where
  | ok (a : α)
  | err (e : ErrorKind)
  | panicked (msg : String)
  deriving Repr, DecidableEq

/-- WasccHost::remove_actor (src/lib.rs): indexes the terminators map at the
actor subject and sends true on the found sender, then returns Ok immediately.
The HashMap Index operation panics when the key is absent, so a missing worker
is a panic, not an Err. The second component lists the subjects whose
terminator received the shutdown signal. -/
def remove_actor (h : WasccHost) (pk : String) : RustOutcome Unit × List String :=
  match mapLookup h.terminators (actor_subject pk) with
  | some _ => (RustOutcome.ok (), [actor_subject pk])
  | none =>
      (RustOutcome.panicked "terminators map has no entry for the actor subject", [])

/-- Result of add_native_capability: the returned value, the host registries
afterwards, and whether a provider worker spawn was attempted. -/
structure AddCapabilityResult : Type where
  result : Except ErrorKind Unit
  host : WasccHost
  spawned : Bool
  deriving Repr, DecidableEq

/-- WasccHost::add_native_capability (src/lib.rs): rejects when the caps map
already holds the (binding_name, capability id) key, with a CapabilityProvider
error; otherwise inserts the descriptor under that key and spawns the provider
worker (spawns.rs is not under src/; the spawn is modelled by its result — note
the insert happens before the spawn and is not rolled back). -/
def add_native_capability (spawnResult : Except ErrorKind Unit) (h : WasccHost)
    (capability : NativeCapability) : AddCapabilityResult :=
  if mapContains h.caps (capability.binding_name, capability.id) then
    ⟨Except.error (ErrorKind.CapabilityProvider
      ("Capability provider " ++ capability.id ++
       " cannot be bound to the same name (" ++ capability.binding_name ++
       ") twice, loading failed.")), h, false⟩
  else
    let h2 := { h with
      caps := mapInsert h.caps (capability.binding_name, capability.descriptor.id)
        capability.descriptor }
    match spawnResult with
    | Except.ok _ => ⟨Except.ok (), h2, true⟩
    | Except.error e => ⟨Except.error e, h2, true⟩

/-- WasccHost::add_actor (src/lib.rs): rejects a duplicate public key with a
MiscHost error before anything else runs; then token validation (authz.rs is
not under src/, modelled by validationOk), the auth hook (modelled by authOk),
claims registration, the worker spawn (spawns.rs is not under src/, modelled by
spawnOk; on success the facade holds a terminator under the actor subject), and
finally, when the actor declares the extras capability, a bind_actor call to
the extras provider. -/
def add_actor (bus : String → Invocation → Except ErrorKind InvocationResponse)
    (validationOk authOk spawnOk : Bool) (h : WasccHost) (actor : Actor) :
    Except ErrorKind Unit × WasccHost :=
  if mapContains h.claims actor.public_key then
    (Except.error (ErrorKind.MiscHost
      ("Actor " ++ actor.public_key ++
       " is already in this host. Cannot host multiple instances of the same actor in the same host")),
     h)
  else if validationOk = false then
    (Except.error (ErrorKind.ClaimsValidation "token validation failed"), h)
  else if authOk = false then
    (Except.error (ErrorKind.Authorization
      "Authorization hook denied access to module"), h)
  else
    let h1 := { h with claims := mapInsert h.claims actor.claims.subject actor.claims }
    if spawnOk = false then
      (Except.error (ErrorKind.MiscHost "unable to spawn the actor worker"), h1)
    else
      let h2 := { h1 with
        terminators := mapInsert h1.terminators (actor_subject actor.public_key) 0 }
      if actor.capabilities.contains extras_CAPABILITY_ID then
        let r := bind_actor bus h2 actor.public_key extras_CAPABILITY_ID none []
        (r.result, r.host)
      else
        (Except.ok (), h2)

/-- Discriminator for successful results. -/
def exceptIsOk {ε α : Type} : Except ε α → Bool
  | Except.ok _ => true
  | Except.error _ => false

/-- Discriminator for the NoSuchSubscriber error kind on a result. -/
def isNoSuchSubscriberError {α : Type} : Except ErrorKind α → Bool
  | Except.error (ErrorKind.NoSuchSubscriber _) => true
  | _ => false

/-- Discriminator for the outcome of returning Err (as opposed to Ok or a
panic). -/
def RustOutcome.isErr {α : Type} : RustOutcome α → Bool
  | RustOutcome.err _ => true
  | _ => false

theorem mapLookup_mapInsert_self {κ α : Type} [DecidableEq κ]
    (m : List (κ × α)) (k : κ) (v : α) : mapLookup (mapInsert m k v) k = some v := by
  induction m with
  | nil => simp [mapInsert, mapLookup]
  | cons hd tl ih =>
    obtain ⟨k2, v2⟩ := hd
    by_cases hk : k2 = k
    · simp [mapInsert, hk, mapLookup]
    · simp [mapInsert, hk, mapLookup, ih]

theorem mapContains_mapInsert_self {κ α : Type} [DecidableEq κ]
    (m : List (κ × α)) (k : κ) (v : α) : mapContains (mapInsert m k v) k = true := by
  simp [mapContains, mapLookup_mapInsert_self]

theorem actor_subject_ne_provider_subject (pk capid binding : String) :
    actor_subject pk ≠ provider_subject capid binding := by
  intro h
  have h2 : (actor_subject pk).data = (provider_subject capid binding).data :=
    congrArg String.data h
  simp only [actor_subject, provider_subject, String.data_append] at h2
  simp at h2

/-- C10: for every pk not present in the claims map, call_actor returns a
MiscHost No-such-actor error and issues no invocation on the bus (the check
runs before any envelope is built). -/
theorem call_actor_rejects_unknown_actor
    (bus : String → Invocation → Except ErrorKind InvocationResponse)
    (h : WasccHost) (actor operation : String) (msg : List Nat)
    (habs : mapContains h.claims actor = false) :
    call_actor bus h actor operation msg =
      ⟨Except.error (ErrorKind.MiscHost "No such actor"), []⟩ := by
  simp [call_actor, habs]

/-- Witness for C10 at the empty host. -/
theorem call_actor_rejects_unknown_actor_witness :
    call_actor (fun _ _ => Except.ok ⟨[], none⟩) ⟨[], [], [], []⟩ "MX" "Op" [] =
      ⟨Except.error (ErrorKind.MiscHost "No such actor"), []⟩ :=
  call_actor_rejects_unknown_actor (fun _ _ => Except.ok ⟨[], none⟩)
    ⟨[], [], [], []⟩ "MX" "Op" [] (by decide)

/-- C1: evaluation at the failing input. With actor MAAA resident and the bus
reply carrying the error text "guest call failed", call_actor still returns
the response bytes as a success: the error field of the response is dropped,
contradicting the claim (and the expectation of the propagate_error test in
tests/core.rs). The invocation it issued does carry origin SYSTEM_ACTOR and
target Actor(MAAA) as the claim states. -/
theorem call_actor_drops_response_error :
    call_actor (fun _ _ => Except.ok ⟨[1, 2, 3], some "guest call failed"⟩)
        ⟨[("MAAA", ⟨"MAAA", []⟩)], [], [], []⟩ "MAAA" "HandleRequest" [7] =
      ⟨Except.ok [1, 2, 3],
       [(actor_subject "MAAA",
         ⟨SYSTEM_ACTOR, InvocationTarget.Actor "MAAA", "HandleRequest",
          Payload.bytes [7]⟩)]⟩ := by decide

/-- C3: for every actor whose public key is already present in the claims map,
add_actor returns a MiscHost error saying the actor is already in this host,
and returns every registry unchanged. -/
theorem add_actor_rejects_duplicate_pk
    (bus : String → Invocation → Except ErrorKind InvocationResponse)
    (validationOk authOk spawnOk : Bool) (h : WasccHost) (actor : Actor)
    (hdup : mapContains h.claims actor.public_key = true) :
    add_actor bus validationOk authOk spawnOk h actor =
      (Except.error (ErrorKind.MiscHost
        ("Actor " ++ actor.public_key ++
         " is already in this host. Cannot host multiple instances of the same actor in the same host")),
       h) := by
  simp [add_actor, hdup]

/-- Witness for C3 at a host already holding MAAA. -/
theorem add_actor_rejects_duplicate_pk_witness :
    add_actor (fun _ _ => Except.ok ⟨[], none⟩) true true true
        ⟨[("MAAA", ⟨"MAAA", []⟩)], [], [], []⟩ ⟨⟨"MAAA", []⟩⟩ =
      (Except.error (ErrorKind.MiscHost
        ("Actor " ++ Actor.public_key ⟨⟨"MAAA", []⟩⟩ ++
         " is already in this host. Cannot host multiple instances of the same actor in the same host")),
       ⟨[("MAAA", ⟨"MAAA", []⟩)], [], [], []⟩) :=
  add_actor_rejects_duplicate_pk (fun _ _ => Except.ok ⟨[], none⟩) true true true
    ⟨[("MAAA", ⟨"MAAA", []⟩)], [], [], []⟩ ⟨⟨"MAAA", []⟩⟩ (by decide)

/-- C4 counterexample: on a host whose terminators map is empty, remove_actor
for pk MX does not return an error to the caller — it panics when the
terminators map index fails — so the claim as stated is false at this input. -/
theorem remove_actor_no_worker_cex :
    (remove_actor ⟨[], [], [], []⟩ "MX").fst =
      RustOutcome.panicked "terminators map has no entry for the actor subject" ∧
    RustOutcome.isErr (remove_actor ⟨[], [], [], []⟩ "MX").fst = false := by decide

/-- C4 amended: if a worker is registered under the actor subject for pk,
remove_actor sends the shutdown signal on the terminator channel of that
worker and returns success immediately; if pk has no worker the call panics
(it does not return an error to the caller). -/
theorem remove_actor_spec (h : WasccHost) (pk : String) :
    (mapContains h.terminators (actor_subject pk) = true →
      remove_actor h pk = (RustOutcome.ok (), [actor_subject pk])) ∧
    (mapContains h.terminators (actor_subject pk) = false →
      remove_actor h pk =
        (RustOutcome.panicked "terminators map has no entry for the actor subject",
         [])) := by
  cases hl : mapLookup h.terminators (actor_subject pk) with
  | none =>
    refine ⟨fun hc => ?_, fun _ => ?_⟩
    · simp [mapContains, hl] at hc
    · simp [remove_actor, hl]
  | some t =>
    refine ⟨fun _ => ?_, fun hc => ?_⟩
    · simp [remove_actor, hl]
    · simp [mapContains, hl] at hc

/-- Witness for C4 at a host with a worker for MAAA. -/
theorem remove_actor_spec_witness :
    remove_actor ⟨[], [], [], [(actor_subject "MAAA", 5)]⟩ "MAAA" =
      (RustOutcome.ok (), [actor_subject "MAAA"]) :=
  (remove_actor_spec ⟨[], [], [], [(actor_subject "MAAA", 5)]⟩ "MAAA").1 (by decide)

/-- C5 counterexample: on the in-process bus with an empty subscription table,
invoke returns a MiscHost error naming the subject with no subscribers — not
an error of the NoSuchSubscriber kind — so the error kind the claim states is
false at this input. -/
theorem inproc_invoke_error_kind_cex :
    (InprocBus.invoke (fun _ => ⟨[], none⟩) ⟨[]⟩ "wasmbus.actor.MX"
        ⟨SYSTEM_ACTOR, InvocationTarget.Actor "MX", "Op", Payload.bytes []⟩).fst =
      Except.error (ErrorKind.MiscHost
        "Attempted bus call for wasmbus.actor.MX with no subscribers") ∧
    isNoSuchSubscriberError
      (InprocBus.invoke (fun _ => ⟨[], none⟩) ⟨[]⟩ "wasmbus.actor.MX"
        ⟨SYSTEM_ACTOR, InvocationTarget.Actor "MX", "Op", Payload.bytes []⟩).fst =
      false := by decide

/-- C5 amended: for every subject with no registered subscription, invoke on
the in-process bus returns an immediate MiscHost error whose message says the
subject has no subscribers, delivers the invocation to nobody, and leaves the
subscription table unchanged. -/
theorem inproc_invoke_no_subscriber
    (respond : Nat → InvocationResponse) (b : InprocBus) (subject : String)
    (inv : Invocation) (habs : mapLookup b.subscriptions subject = none) :
    InprocBus.invoke respond b subject inv =
      (Except.error (ErrorKind.MiscHost
        ("Attempted bus call for " ++ subject ++ " with no subscribers")),
       b, []) := by
  simp [InprocBus.invoke, habs]

/-- Witness for C5 at the empty in-process bus. -/
theorem inproc_invoke_no_subscriber_witness :
    InprocBus.invoke (fun _ => ⟨[], none⟩) ⟨[]⟩ "wasmbus.actor.MY"
        ⟨SYSTEM_ACTOR, InvocationTarget.Actor "MY", "Op", Payload.bytes []⟩ =
      (Except.error (ErrorKind.MiscHost
        ("Attempted bus call for " ++ "wasmbus.actor.MY" ++ " with no subscribers")),
       ⟨[]⟩, []) :=
  inproc_invoke_no_subscriber (fun _ => ⟨[], none⟩) ⟨[]⟩ "wasmbus.actor.MY"
    ⟨SYSTEM_ACTOR, InvocationTarget.Actor "MY", "Op", Payload.bytes []⟩ (by decide)

/-- C6 counterexample: on the networked transport, with the subject already
subscribed (handler 1) and the NATS queue_subscribe succeeding with handler 2,
subscribe returns success and replaces the local entry: the duplicate
subscription is not rejected with an error, so the claim as stated is false at
this input. -/
theorem lattice_subscribe_duplicate_cex :
    DistributedBus.subscribe (Except.ok 2) ⟨[("wasmbus.actor.MX", 1)]⟩
        "wasmbus.actor.MX" =
      (Except.ok (), ⟨[("wasmbus.actor.MX", 2)]⟩) := by decide

/-- C6 amended: a subscribe for a subject that already has a subscriber
silently replaces the existing subscription and returns success on the
in-process transport; and on the networked transport the duplicate is likewise
not rejected: whenever the underlying NATS queue_subscribe succeeds, the call
returns success and the new handler replaces the entry in the local subs map. -/
theorem subscribe_replaces_existing (b : InprocBus) (db : DistributedBus)
    (subject : String) (channel handler : Nat) :
    InprocBus.subscribe b subject channel =
      (Except.ok (), ⟨mapInsert b.subscriptions subject channel⟩) ∧
    mapLookup (InprocBus.subscribe b subject channel).snd.subscriptions subject =
      some channel ∧
    DistributedBus.subscribe (Except.ok handler) db subject =
      (Except.ok (), ⟨mapInsert db.subs subject handler⟩) ∧
    mapLookup (DistributedBus.subscribe (Except.ok handler) db subject).snd.subs
      subject = some handler := by
  refine ⟨rfl, ?_, rfl, ?_⟩ <;>
    simp [InprocBus.subscribe, DistributedBus.subscribe, mapLookup_mapInsert_self]

theorem add_native_capability_of_contains (s : Except ErrorKind Unit)
    (h : WasccHost) (c : NativeCapability)
    (hc : mapContains h.caps (c.binding_name, c.id) = true) :
    add_native_capability s h c =
      ⟨Except.error (ErrorKind.CapabilityProvider
        ("Capability provider " ++ c.id ++ " cannot be bound to the same name ("
          ++ c.binding_name ++ ") twice, loading failed.")), h, false⟩ := by
  simp [add_native_capability, hc]

theorem add_native_capability_caps_of_fresh (s : Except ErrorKind Unit)
    (h : WasccHost) (c : NativeCapability)
    (hc : mapContains h.caps (c.binding_name, c.id) = false) :
    (add_native_capability s h c).host.caps =
      mapInsert h.caps (c.binding_name, c.descriptor.id) c.descriptor := by
  cases s <;> simp [add_native_capability, hc]

theorem add_native_capability_contains_after (s : Except ErrorKind Unit)
    (h : WasccHost) (c : NativeCapability) :
    mapContains (add_native_capability s h c).host.caps
      (c.binding_name, c.id) = true := by
  cases hc : mapContains h.caps (c.binding_name, c.id) with
  | true => simp [add_native_capability, hc]
  | false =>
    rw [add_native_capability_caps_of_fresh s h c hc]
    exact mapContains_mapInsert_self h.caps (c.binding_name, c.descriptor.id)
      c.descriptor

/-- C7: for every (capid, binding) key, add_native_capability succeeds at most
once: on a fresh key it inserts the descriptor under (binding_name, capability
id) and attempts the worker spawn; on a key already present it returns the
CapabilityProvider duplicate error, leaves the registries unchanged and spawns
nothing; and a second call with the same capability after a first call always
returns the duplicate error. -/
theorem add_native_capability_at_most_once
    (s1 s2 : Except ErrorKind Unit) (h : WasccHost) (c : NativeCapability) :
    (mapContains h.caps (c.binding_name, c.id) = false →
      (add_native_capability s1 h c).host.caps =
        mapInsert h.caps (c.binding_name, c.descriptor.id) c.descriptor ∧
      (add_native_capability s1 h c).spawned = true) ∧
    (mapContains h.caps (c.binding_name, c.id) = true →
      add_native_capability s1 h c =
        ⟨Except.error (ErrorKind.CapabilityProvider
          ("Capability provider " ++ c.id ++ " cannot be bound to the same name ("
            ++ c.binding_name ++ ") twice, loading failed.")), h, false⟩) ∧
    (add_native_capability s2 (add_native_capability s1 h c).host c).result =
      Except.error (ErrorKind.CapabilityProvider
        ("Capability provider " ++ c.id ++ " cannot be bound to the same name ("
          ++ c.binding_name ++ ") twice, loading failed.")) := by
  refine ⟨fun hc => ?_, fun hc => add_native_capability_of_contains s1 h c hc, ?_⟩
  · refine ⟨add_native_capability_caps_of_fresh s1 h c hc, ?_⟩
    cases s1 <;> simp [add_native_capability, hc]
  · rw [add_native_capability_of_contains s2 (add_native_capability s1 h c).host c
      (add_native_capability_contains_after s1 h c)]

/-- Witness for C7: a fresh key inserts the descriptor and reaches the spawn,
and the immediate retry is rejected as a duplicate. -/
theorem add_native_capability_at_most_once_witness :
    (add_native_capability (Except.ok ()) ⟨[], [], [], []⟩
        ⟨"default", ⟨"wascc:http_server", "HTTP"⟩⟩).host.caps =
      mapInsert ([] : List ((String × String) × CapabilityDescriptor))
        ("default", "wascc:http_server") ⟨"wascc:http_server", "HTTP"⟩ :=
  ((add_native_capability_at_most_once (Except.ok ()) (Except.ok ())
    ⟨[], [], [], []⟩ ⟨"default", ⟨"wascc:http_server", "HTTP"⟩⟩).1 (by decide)).1

/-- C2: bind_actor appends the (actor, capid, binding) triple exactly when the
configuration invocation on the bus returned a response with no error (after
the presence and authorization checks passed); on every failure path — actor
absent from the claims map, can_invoke false, bus-level error, or a
provider-reported error in the response — it returns an error and leaves the
host registries, the bindings list included, unchanged. -/
theorem bind_actor_records_iff_config_ok
    (bus : String → Invocation → Except ErrorKind InvocationResponse)
    (h : WasccHost) (actor capid : String) (binding_name : Option String)
    (config : List (String × String)) :
    (exceptIsOk (bind_actor bus h actor capid binding_name config).result = true ↔
      config_invocation_ok bus h actor capid binding_name config = true) ∧
    (exceptIsOk (bind_actor bus h actor capid binding_name config).result = true →
      (bind_actor bus h actor capid binding_name config).host =
        record_binding h actor capid (binding_name.getD "default")) ∧
    (exceptIsOk (bind_actor bus h actor capid binding_name config).result = false →
      (∃ e, (bind_actor bus h actor capid binding_name config).result =
        Except.error e) ∧
      (bind_actor bus h actor capid binding_name config).host = h) := by
  unfold bind_actor config_invocation_ok
  cases hl : mapLookup h.claims actor with
  | none => simp [hl, exceptIsOk]
  | some c =>
    cases hci : can_invoke c capid with
    | false => simp [hl, hci, exceptIsOk]
    | true =>
      cases hb : bus (bind_target_subject actor capid (binding_name.getD "default"))
          (gen_config_invocation actor capid (binding_name.getD "default") config) with
      | error e => simp [hl, hci, hb, exceptIsOk]
      | ok r =>
        cases he : r.error with
        | some e => simp [hl, hci, hb, he, exceptIsOk]
        | none => simp [hl, hci, hb, he, exceptIsOk]

/-- Witness for C2: a successful configuration invocation appends the binding
triple with the default binding name. -/
theorem bind_actor_records_iff_config_ok_witness :
    (bind_actor (fun _ _ => Except.ok ⟨[], none⟩)
        ⟨[("MAAA", ⟨"MAAA", ["wascc:http_server"]⟩)], [], [], []⟩
        "MAAA" "wascc:http_server" none []).host =
      record_binding ⟨[("MAAA", ⟨"MAAA", ["wascc:http_server"]⟩)], [], [], []⟩
        "MAAA" "wascc:http_server" "default" :=
  ((bind_actor_records_iff_config_ok (fun _ _ => Except.ok ⟨[], none⟩)
    ⟨[("MAAA", ⟨"MAAA", ["wascc:http_server"]⟩)], [], [], []⟩
    "MAAA" "wascc:http_server" none []).2.1 (by decide))

theorem bind_actor_busCalls_subject
    (bus : String → Invocation → Except ErrorKind InvocationResponse)
    (h : WasccHost) (actor capid : String) (binding_name : Option String)
    (config : List (String × String)) (s : String) (inv : Invocation)
    (hcall : (bind_actor bus h actor capid binding_name config).busCalls =
      [(s, inv)]) :
    s = bind_target_subject actor capid (binding_name.getD "default") := by
  unfold bind_actor at hcall
  cases hl : mapLookup h.claims actor with
  | none => simp [hl] at hcall
  | some c =>
    cases hci : can_invoke c capid with
    | false => simp [hl, hci] at hcall
    | true =>
      cases hb : bus (bind_target_subject actor capid (binding_name.getD "default"))
          (gen_config_invocation actor capid (binding_name.getD "default") config) with
      | error e => simp [hl, hci, hb] at hcall; exact hcall.1.symm
      | ok r =>
        cases he : r.error with
        | some e => simp [hl, hci, hb, he] at hcall; exact hcall.1.symm
        | none => simp [hl, hci, hb, he] at hcall; exact hcall.1.symm

/-- C8 counterexample: with SYSTEM_ACTOR (the string system) present in the
claims map, bind_actor(system, MCAP, none, empty) issues its configuration
invocation on the actor subject wasmbus.actor.system even though the actor
does not equal the capid, so the claim that the actor subject is used exactly
when the actor equals the capid is false at this input. -/
theorem bind_target_system_actor_cex :
    ((bind_actor (fun _ _ => Except.ok ⟨[], none⟩)
        ⟨[("system", ⟨"system", ["MCAP"]⟩)], [], [], []⟩
        "system" "MCAP" none []).busCalls.map Prod.fst =
      [actor_subject "system"]) ∧
    "system" ≠ "MCAP" := by decide

/-- C8 amended: whenever bind_actor issues its configuration invocation on the
bus, the invocation goes to the actor subject exactly when the capability id
starts with M and the actor equals the capid or the actor is SYSTEM_ACTOR; in
all other cases it goes to the provider subject derived from (capid, binding),
where binding is the literal string default when no binding name is given. -/
theorem bind_actor_target_subject
    (bus : String → Invocation → Except ErrorKind InvocationResponse)
    (h : WasccHost) (actor capid : String) (binding_name : Option String)
    (config : List (String × String)) (s : String) (inv : Invocation)
    (hcall : (bind_actor bus h actor capid binding_name config).busCalls =
      [(s, inv)]) :
    (s = actor_subject actor ↔
      ((actor = capid ∨ actor = SYSTEM_ACTOR) ∧ stringStartsWith capid "M" = true)) ∧
    (¬((actor = capid ∨ actor = SYSTEM_ACTOR) ∧ stringStartsWith capid "M" = true) →
      s = provider_subject capid (binding_name.getD "default")) := by
  have hs := bind_actor_busCalls_subject bus h actor capid binding_name config s inv
    hcall
  have hcond : (((actor == capid || actor == SYSTEM_ACTOR) &&
      stringStartsWith capid "M") = true) ↔
      ((actor = capid ∨ actor = SYSTEM_ACTOR) ∧ stringStartsWith capid "M" = true) := by
    simp [Bool.and_eq_true, Bool.or_eq_true]
  by_cases hp : (actor = capid ∨ actor = SYSTEM_ACTOR) ∧
      stringStartsWith capid "M" = true
  · have hb : ((actor == capid || actor == SYSTEM_ACTOR) &&
        stringStartsWith capid "M") = true := hcond.mpr hp
    rw [bind_target_subject, hb] at hs
    simp only [if_true] at hs
    exact ⟨by rw [hs]; exact ⟨fun _ => hp, fun _ => rfl⟩, fun hnp => absurd hp hnp⟩
  · have hb : ((actor == capid || actor == SYSTEM_ACTOR) &&
        stringStartsWith capid "M") = false := by
      cases hv : ((actor == capid || actor == SYSTEM_ACTOR) &&
        stringStartsWith capid "M") with
      | true => exact absurd (hcond.mp hv) hp
      | false => rfl
    rw [bind_target_subject, hb] at hs
    simp only [Bool.false_eq_true, if_false] at hs
    refine ⟨⟨fun hsa => ?_, fun hpp => absurd hpp hp⟩, fun _ => hs⟩
    rw [hs] at hsa
    exact absurd hsa.symm
      (actor_subject_ne_provider_subject actor capid (binding_name.getD "default"))

/-- Witness for C8: a self-configuring actor whose capid equals its own
M-prefixed public key is routed to its actor subject. -/
theorem bind_actor_target_subject_witness :
    actor_subject "MCAP" = actor_subject "MCAP" ↔
      (("MCAP" = "MCAP" ∨ "MCAP" = SYSTEM_ACTOR) ∧
       stringStartsWith "MCAP" "M" = true) :=
  (bind_actor_target_subject (fun _ _ => Except.ok ⟨[], none⟩)
    ⟨[("MCAP", ⟨"MCAP", ["MCAP"]⟩)], [], [], []⟩ "MCAP" "MCAP" none []
    (actor_subject "MCAP") (gen_config_invocation "MCAP" "MCAP" "default" [])
    (by decide)).1

/-- C9: the invoke of the networked transport performs its request with the
timeout computed by get_timeout — the parsed value of
LATTICE_RPC_TIMEOUT_MILLIS when the variable is set to an integer, 500
milliseconds when it is unset — and a reply that does not arrive within the
timeout is surfaced to the caller as the transient IO/Transport error kind. -/
theorem lattice_invoke_timeout
    (envVal : Option String) (reply : NatsReply) (subject : String)
    (inv : Invocation) :
    (∀ s n, envVal = some s → rustParseU64 s = some n →
      (DistributedBus.invoke envVal reply subject inv).snd = n) ∧
    (envVal = none → (DistributedBus.invoke envVal reply subject inv).snd = 500) ∧
    ((DistributedBus.invoke envVal NatsReply.timeout subject inv).fst =
      Except.error (ErrorKind.Io "the lattice rpc request timed out")) := by
  refine ⟨?_, ?_, ?_⟩
  · intro s n hs hp
    subst hs
    have hse : ¬s = "" := by
      intro h0
      subst h0
      have : rustParseU64 "" = (none : Option Nat) := by decide
      rw [this] at hp
      cases hp
    cases reply <;>
      simp [DistributedBus.invoke, get_timeout, hse, hp]
  · intro h0
    subst h0
    cases reply <;> simp [DistributedBus.invoke, get_timeout,
      DEFAULT_LATTICE_RPC_TIMEOUT_MILLIS]
  · cases reply <;> rfl

/-- Witness for C9: with the variable set to 750 the request timeout is 750
milliseconds, and an elapsed timeout surfaces the IO/Transport error. -/
theorem lattice_invoke_timeout_witness :
    (DistributedBus.invoke (some "750") NatsReply.timeout "wasmbus.actor.MZ"
        ⟨SYSTEM_ACTOR, InvocationTarget.Actor "MZ", "Op", Payload.bytes []⟩).snd =
      750 :=
  (lattice_invoke_timeout (some "750") NatsReply.timeout "wasmbus.actor.MZ"
    ⟨SYSTEM_ACTOR, InvocationTarget.Actor "MZ", "Op", Payload.bytes []⟩).1
    "750" 750 rfl (by decide)

end Wascc
